import Mathlib

/-!
Shallow embedding of `GitFirmwareUpdate` (src/src/GitFirmwareUpdate.{h,cpp}),
a GitHub-based OTA firmware update controller for ESP32.

The pure parts (version parsing and comparison, progress accessor) are
translated directly.  The effectful parts (`checkForUpdate`,
`performHttpFirmwareUpdate`) are translated as explicit state passing over a
`Session` record mirroring the private fields of the C++ class, with the
external collaborators (HTTP client, JSON parser, flash `Update` library,
stream) supplied as oracle data (`CheckEnv`, `AttemptEnv`, `ChunkEvent`)
describing the observable outcomes of each collaborator call.  Side effects
on the collaborators that the claims mention (flash-transaction aborts,
connection releases) are tracked in a `Trace` of call counters.

Machine integers: `size_t`/content-length values are `Nat`/`Int`; the 8-bit
retry counter `retryAttempt` (a C `uint8_t`) is a `Nat` incremented modulo
256, exactly as unsigned char arithmetic wraps.
-/

namespace GitFirmwareUpdate

/-- The `UpdateError` enum of GitFirmwareUpdate.h (lines 51-63), same order. -/
inductive UpdateError where
  | NO_ERROR
  | NO_UPDATE_AVAILABLE
  | NETWORK_ERROR
  | HTTP_ERROR
  | JSON_PARSE_ERROR
  | INVALID_VERSION
  | DOWNLOAD_FAILED
  | FLASH_FAILED
  | INVALID_URL
  | UPDATE_SIZE_ERROR
  | UPDATE_ABORTED
deriving DecidableEq, Repr

/-- The mutable private state of the `GitFirmwareUpdate` class
(GitFirmwareUpdate.h lines 228-248).  Strings are `List Char`
(`_lastErrorDetail`, the callbacks, `_timeoutMs` and `_validateCert` are not
modelled: no claim mentions them and they feed no modelled branch). -/
structure Session where
  currentVersion : List Char
  githubUrl : List Char
  remoteVersion : List Char
  releaseNotes : List Char
  firmwareUrl : List Char
  lastError : UpdateError
  retryCount : Nat
  abortFlag : Bool
  isUpdating : Bool
  currentBytesRead : Nat
  totalBytes : Nat
  currentPercent : Nat
deriving DecidableEq, Repr

/-- `setError` (GitFirmwareUpdate.cpp lines 577-586); the detail string is
not modelled, only the error-code assignment. -/
def setError (e : UpdateError) (st : Session) : Session :=
  { st with lastError := e }

/-- `strncmp(url, "https:\x2f\x2f", 8) == 0` respectively
`url.startsWith("https:\x2f\x2f")` (cpp lines 39, 49, 253, 280). -/
def isHttpsUrl (s : List Char) : Bool :=
  match s with
  | 'h' :: 't' :: 't' :: 'p' :: 's' :: ':' :: '/' :: '/' :: _ => true
  | _ => false

/-- `String.indexOf(Char('.')) != -1` (cpp line 131): the version string
contains at least one dot. -/
def hasDot : List Char → Bool
  | [] => false
  | c :: r => if c = '.' then true else hasDot r

/-- The whitespace class skipped by `atoi` (isspace). -/
def isSpaceChar (c : Char) : Bool :=
  c = ' ' ∨ c = '\t' ∨ c = '\n' ∨ c = '\x0b' ∨ c = '\x0c' ∨ c = '\r'

/-- Accumulate a leading run of decimal digits (helper for `atoi`). -/
def digitsAux : List Char → Nat → Nat
  | [], acc => acc
  | c :: r, acc => if c.isDigit then digitsAux r (acc * 10 + (c.toNat - 48)) else acc

/-- Value of the leading run of decimal digits, 0 if there is none. -/
def digitsVal (s : List Char) : Nat := digitsAux s 0

/-- C `atoi`: skip leading whitespace, optional sign, best-effort leading
decimal integer, 0 when no digits follow.  Overflow is not modelled (the
claims only involve small components). -/
def atoi (s : List Char) : Int :=
  match s.dropWhile isSpaceChar with
  | '-' :: r => -(digitsVal r : Int)
  | '+' :: r => (digitsVal r : Int)
  | r => (digitsVal r : Int)

/-- `strchr(s, Char('.'))` advanced by one: the suffix immediately after the
first dot, `none` when there is no dot (cpp lines 226, 229 use
`strchr` and then `p + 1`). -/
def afterDot : List Char → Option (List Char)
  | [] => none
  | c :: r => if c = '.' then some r else afterDot r

/-- `parseVersion` (cpp lines 221-234): `v[0]=v[1]=v[2]=0`; empty input
returns zeros; otherwise `v[0] = atoi(s)`, and each later component comes
from `atoi` applied just after the next dot, missing dots leave 0. -/
def parseVersion (s : List Char) : Int × Int × Int :=
  if s = [] then (0, 0, 0)
  else
    let v0 := atoi s
    match afterDot s with
    | none => (v0, 0, 0)
    | some t1 =>
      let v1 := atoi t1
      match afterDot t1 with
      | none => (v0, v1, 0)
      | some t2 => (v0, v1, atoi t2)

/-- The comparison loop of `cmpVersion` (cpp lines 240-243), unrolled for
`i = 0, 1, 2`: return `ma[i] - mb[i]` at the first unequal pair, else 0. -/
def cmpTriple (x y : Int × Int × Int) : Int :=
  if x.1 ≠ y.1 then x.1 - y.1
  else if x.2.1 ≠ y.2.1 then x.2.1 - y.2.1
  else if x.2.2 ≠ y.2.2 then x.2.2 - y.2.2
  else 0

/-- `cmpVersion` (cpp lines 236-244). -/
def cmpVersion (a b : List Char) : Int :=
  cmpTriple (parseVersion a) (parseVersion b)

/-- Strict lexicographic order on parsed version triples: the first unequal
component pair decides.  Used to state what the sign of `cmpVersion`
reports. -/
def lexLt (x y : Int × Int × Int) : Prop :=
  x.1 < y.1 ∨ (x.1 = y.1 ∧ (x.2.1 < y.2.1 ∨ (x.2.1 = y.2.1 ∧ x.2.2 < y.2.2)))

instance (x y : Int × Int × Int) : Decidable (lexLt x y) := by
  unfold lexLt
  infer_instance

/-! ## Update Checker (`checkForUpdate`, cpp lines 30-151) -/

/-- Oracle data for one `checkForUpdate` call: the observable outcomes of
the transport and JSON collaborators.  `version`, `url`, `notes` are the
values of `doc["version"] | ""` etc. (missing keys already defaulted to the
empty string, cpp lines 113-115). -/
structure CheckEnv where
  beginOk : Bool
  httpCode : Int
  jsonOk : Bool
  version : List Char
  url : List Char
  notes : List Char
deriving DecidableEq, Repr

/-- `checkForUpdate` (cpp lines 30-151), compiled with the default
`GIT_FIRMWARE_HTTP_ONLY` flag passed as `httpOnly`.  Returns the C++ return
value and the session state after the call.  The `indexOf` warning at line
125 is log-only and has no state effect. -/
def checkForUpdate (httpOnly : Bool) (st : Session) (env : CheckEnv) :
    Bool × Session :=
  let st0 := { st with lastError := UpdateError.NO_ERROR, abortFlag := false,
                       remoteVersion := [], releaseNotes := [], firmwareUrl := [] }
  if httpOnly ∧ isHttpsUrl st0.githubUrl then
    (false, setError .INVALID_URL st0)
  else if env.beginOk = false then
    (false, setError .NETWORK_ERROR st0)
  else if env.httpCode ≠ 200 then
    (false, setError .HTTP_ERROR st0)
  else if env.jsonOk = false then
    (false, setError .JSON_PARSE_ERROR st0)
  else
    let st1 := { st0 with remoteVersion := env.version,
                          firmwareUrl := env.url, releaseNotes := env.notes }
    if st1.remoteVersion = [] ∨ st1.firmwareUrl = [] then
      (false, setError .INVALID_VERSION st1)
    else if hasDot st1.remoteVersion = false then
      (false, setError .INVALID_VERSION st1)
    else if cmpVersion st1.remoteVersion st1.currentVersion ≤ 0 then
      (false, { st1 with lastError := UpdateError.NO_UPDATE_AVAILABLE })
    else
      (true, st1)

/-! ## Progress accessor (`getProgress`, cpp lines 545-555) -/

/-- `getProgress` (cpp lines 545-555).  The three reference parameters of
the C++ signature are passed in as the values the caller variables hold
before the call and returned as the values they hold after it, so writes
(and the absence of writes) are explicit. -/
def getProgress (st : Session) (bytesRead totalBytes percent : Nat) :
    Bool × Nat × Nat × Nat :=
  if st.isUpdating = false ∧ st.currentPercent = 0 ∧ st.currentBytesRead = 0 then
    (false, bytesRead, totalBytes, percent)
  else
    (st.isUpdating || (decide (100 ≤ st.currentPercent) && decide (0 < st.totalBytes)),
     st.currentBytesRead, st.totalBytes, st.currentPercent)

/-! ## Update Installer (`performHttpFirmwareUpdate`, cpp lines 246-543) -/

/-- One iteration of the chunked copy loop (cpp lines 398-463): the
observable collaborator behaviour during that iteration.
`connected` is `http.connected()` sampled at the loop head,
`connectedRecheck` is the re-sample at line 401 (used only when
`avail = 0`), `readCount` is the `stream->readBytes` return value,
`writeCount` the `Update.write` return value, and `setAbort` records
whether `abortUpdate()` was invoked (from a callback or another task)
during this iteration. -/
structure ChunkEvent where
  connected : Bool
  avail : Nat
  connectedRecheck : Bool
  readCount : Nat
  writeCount : Nat
  setAbort : Bool
deriving DecidableEq, Repr

/-- How the chunked copy loop ended: `shortWrite` means the
`Update.write(buff, c) != (size_t)c` branch (cpp line 415) fired;
`finished` covers every other exit (loop condition false, inner
disconnect break, read-error break, or content-length reached). -/
inductive CopyExit where
  | shortWrite
  | finished
deriving DecidableEq, Repr

/-- `abortUpdate()` landing during an iteration (`_abortFlag = true`). -/
def applyAbort (e : ChunkEvent) (st : Session) : Session :=
  if e.setAbort then { st with abortFlag := true } else st

/-- The chunked copy loop (cpp lines 398-463) over the finite trace of
iteration events; an exhausted trace models the connection closing.
Mirrors, in order: head condition `http.connected() && !_abortFlag`;
the no-data branch (break on disconnect recheck, else wait and poll
again); the read with `c <= 0` break; the short-write check; progress
update (`_currentBytesRead`, and `_currentPercent` only when the length
is known, clamped to 100); the completion break on
`totalRead >= contentLength`. -/
def copyLoop (hasCL : Bool) (cl : Nat) : List ChunkEvent → Nat → Session →
    CopyExit × Nat × Session
  | [], totalRead, st => (.finished, totalRead, st)
  | e :: rest, totalRead, st =>
    if ¬ (e.connected = true ∧ st.abortFlag = false) then
      (.finished, totalRead, st)
    else if e.avail = 0 then
      if e.connectedRecheck = false then (.finished, totalRead, st)
      else copyLoop hasCL cl rest totalRead (applyAbort e st)
    else if e.readCount = 0 then
      (.finished, totalRead, st)
    else if e.writeCount ≠ e.readCount then
      (.shortWrite, totalRead, st)
    else
      let totalRead2 := totalRead + e.readCount
      let percent := if hasCL = true ∧ 0 < cl then min 100 ((totalRead2 * 100) / cl) else 0
      let st2 := { st with currentBytesRead := totalRead2,
                           currentPercent := if hasCL then percent else st.currentPercent }
      let st3 := applyAbort e st2
      if hasCL = true ∧ cl ≤ totalRead2 then (.finished, totalRead2, st3)
      else copyLoop hasCL cl rest totalRead2 st3

/-- The `Update.begin` retry loop (cpp lines 360-376): up to
`MAX_BEGIN_RETRIES = 5` attempts, stopping at the first success; the
list holds the outcome of each successive `Update.begin` call. -/
def tryBegin (results : List Bool) (beginRetries : Nat) : Bool :=
  if 5 ≤ beginRetries then false
  else
    match results with
    | [] => false
    | r :: rest => if r then true else tryBegin rest (beginRetries + 1)

/-- Oracle data for one attempt of the outer retry loop (cpp lines
270-525): outcomes of `http.begin`, `http.GET`, `http.getSize`, the
`Update.begin` calls, `Update.isRunning` in the HTTP-failure branch, the
copy-loop iteration events, and `Update.end` / `Update.isFinished`. -/
structure AttemptEnv where
  beginOk : Bool
  httpCode : Int
  contentLength : Int
  updateBeginResults : List Bool
  updateIsRunningAtHttpFail : Bool
  events : List ChunkEvent
  updateEndOk : Bool
  updateIsFinished : Bool
deriving DecidableEq, Repr

/-- Counters of the externally visible cleanup calls the claims mention:
`Update.abort()` invocations and `http.end()` invocations. -/
structure Trace where
  flashAborts : Nat
  httpEnds : Nat
deriving DecidableEq, Repr

/-- Per-attempt reset of the progress fields (cpp lines 343-353):
`_totalBytes` from the content length when positive (else 0),
`_currentBytesRead = 0`, `_currentPercent = 0`. -/
def attemptInit (env : AttemptEnv) (st : Session) : Session :=
  { st with totalBytes := if decide (0 < env.contentLength) = true then env.contentLength.toNat else 0,
            currentBytesRead := 0, currentPercent := 0 }

/-- Clearing done on the terminal failure paths (cpp lines 422-425,
477-480, 491-494, 507-510, 531-534): `_isUpdating = false` and all three
progress counters zeroed. -/
def clearProgress (st : Session) : Session :=
  { st with isUpdating := false, currentBytesRead := 0, totalBytes := 0,
            currentPercent := 0 }

/-- Outcome of one body execution of the outer retry loop:
`fatal` = the attempt executed a `return false` inside the loop body
(short flash write, line 415-426, or abort, line 472-481); `ok` = the
attempt reached `success = true` (line 524); `failed` = the attempt did
`retryAttempt++; continue`. -/
inductive AttemptResult where
  | fatal (st : Session) (tr : Trace)
  | ok (st : Session) (tr : Trace)
  | failed (st : Session) (tr : Trace)
deriving DecidableEq, Repr

/-- One body execution of the outer retry loop (cpp lines 270-525),
in source order: the HTTP-only HTTPS rejection (line 299-302, dead under
the line-253 guard but kept), `http.begin` failure (308-312), non-200
HTTP status with its conditional `Update.abort` (318-338), content
length and progress reset (340-353), the `Update.begin` retry loop and
its failure path (360-386), the chunked copy loop, the forced final
100-percent progress (466-467), the abort check (472-482), the
incomplete-download check (484-497), `Update.end` (499-513),
`http.end` (515), and `Update.isFinished` (517-522). -/
def runAttempt (httpOnly : Bool) (url : List Char) (env : AttemptEnv)
    (st : Session) (tr : Trace) : AttemptResult :=
  if httpOnly ∧ isHttpsUrl url then
    .failed (setError .INVALID_URL st) tr
  else if env.beginOk = false then
    .failed (setError .NETWORK_ERROR st) tr
  else if env.httpCode ≠ 200 then
    .failed (setError .HTTP_ERROR st)
      { tr with httpEnds := tr.httpEnds + 1,
                flashAborts := tr.flashAborts +
                  (if env.updateIsRunningAtHttpFail then 1 else 0) }
  else
    let hasCL := decide (0 < env.contentLength)
    let cl := env.contentLength.toNat
    let st1 := attemptInit env st
    if tryBegin env.updateBeginResults 0 = false then
      .failed (setError .UPDATE_SIZE_ERROR st1) { tr with httpEnds := tr.httpEnds + 1 }
    else
      match copyLoop hasCL cl env.events 0 st1 with
      | (.shortWrite, _, st2) =>
        .fatal (clearProgress (setError .FLASH_FAILED st2))
          { tr with flashAborts := tr.flashAborts + 1, httpEnds := tr.httpEnds + 1 }
      | (.finished, totalRead, st2) =>
        let st3 := { st2 with currentPercent := 100, currentBytesRead := totalRead }
        if st3.abortFlag then
          .fatal (clearProgress (setError .UPDATE_ABORTED st3))
            { tr with flashAborts := tr.flashAborts + 1, httpEnds := tr.httpEnds + 1 }
        else if hasCL = true ∧ totalRead ≠ cl then
          .failed (clearProgress (setError .DOWNLOAD_FAILED st3))
            { tr with flashAborts := tr.flashAborts + 1, httpEnds := tr.httpEnds + 1 }
        else if env.updateEndOk = false then
          .failed (clearProgress (setError .FLASH_FAILED st3))
            { tr with flashAborts := tr.flashAborts + 1, httpEnds := tr.httpEnds + 1 }
        else if env.updateIsFinished = false then
          .failed (setError .FLASH_FAILED st3) { tr with httpEnds := tr.httpEnds + 1 }
        else
          .ok st3 { tr with httpEnds := tr.httpEnds + 1 }

/-- The value `performHttpFirmwareUpdate` hands back when it returns:
the C++ return value, the final session state, the cleanup-call trace,
and how many retry-loop attempts were executed. -/
structure RunResult where
  ret : Bool
  st : Session
  tr : Trace
  attemptsUsed : Nat
deriving DecidableEq, Repr

/-- Result of running the outer retry loop for a given amount of fuel:
`done` = the function returned; `more` = the loop condition was still
true after `fuel` executed attempts (the loop is still running), carrying
the live `retryAttempt` counter, state, trace and attempt count. -/
inductive LoopOut where
  | done (r : RunResult)
  | more (retryAttempt : Nat) (st : Session) (tr : Trace) (used : Nat)
deriving DecidableEq, Repr

/-- The outer retry loop (cpp lines 270-525 and the `!success` epilogue at
530-535).  `retryAttempt` is the C `uint8_t` counter: `retryAttempt++`
wraps modulo 256.  The loop condition is
`retryAttempt <= _retryCount && !success && !_abortFlag`; `success` is
encoded by returning `done` directly from the `ok` branch (a successful
attempt makes the condition false and skips the `!success` epilogue).
`envs` is indexed by the number of attempts already executed.  `fuel`
bounds how many further attempts this evaluation may unfold; a `more`
result means the loop had not terminated after that many attempts. -/
def retryLoop (httpOnly : Bool) (url : List Char) (envs : Nat → AttemptEnv) :
    Nat → Nat → Session → Trace → Nat → LoopOut
  | fuel, retryAttempt, st, tr, used =>
    if retryAttempt ≤ st.retryCount ∧ st.abortFlag = false then
      match fuel with
      | 0 => .more retryAttempt st tr used
      | fuel + 1 =>
        match runAttempt httpOnly url (envs used) st tr with
        | .fatal st2 tr2 => .done ⟨false, st2, tr2, used + 1⟩
        | .ok st2 tr2 => .done ⟨true, st2, tr2, used + 1⟩
        | .failed st2 tr2 =>
          retryLoop httpOnly url envs fuel ((retryAttempt + 1) % 256) st2 tr2 (used + 1)
    else
      .done ⟨false, clearProgress st, tr, used⟩

/-- `performHttpFirmwareUpdate` (cpp lines 246-543): the empty-URL check
(247-250), the HTTP-only HTTPS rejection (252-258, which also sets
`_isUpdating = false`), the state initialisation (260-263), and the retry
loop.  The success path calls `ESP.restart()` and returns true; the model
returns `done` with `ret = true` and the state as left by the successful
attempt (`_isUpdating` still true). -/
def performHttpFirmwareUpdate (httpOnly : Bool) (url : List Char)
    (envs : Nat → AttemptEnv) (fuel : Nat) (st : Session) : LoopOut :=
  if url = [] then
    .done ⟨false, setError .INVALID_URL st, ⟨0, 0⟩, 0⟩
  else if httpOnly ∧ isHttpsUrl url then
    .done ⟨false, { setError .INVALID_URL st with isUpdating := false }, ⟨0, 0⟩, 0⟩
  else
    let st1 := { st with isUpdating := true, abortFlag := false,
                         lastError := UpdateError.NO_ERROR }
    retryLoop httpOnly url envs fuel 0 st1 ⟨0, 0⟩ 0

/-! ## Concrete scenarios used by witnesses and counterexamples -/

/-- A download URL for installer scenarios. -/
def u0 : List Char := "http://x/fw.bin".toList

/-- A base session: freshly constructed controller (cpp lines 10-28) with
`setRetryCount(3)` applied, about to run the installer body. -/
def st0 : Session :=
  { currentVersion := "1.0.0".toList, githubUrl := "http://h/latest.json".toList,
    remoteVersion := [], releaseNotes := [], firmwareUrl := [],
    lastError := UpdateError.NO_ERROR, retryCount := 3, abortFlag := false,
    isUpdating := true, currentBytesRead := 0, totalBytes := 0, currentPercent := 0 }

/-- Copy-loop iteration in which `readBytes` hands 5 bytes to
`Update.write` but the write reports only 3 bytes written. -/
def swEvent : ChunkEvent :=
  { connected := true, avail := 5, connectedRecheck := true,
    readCount := 5, writeCount := 3, setAbort := false }

/-- Attempt in which the download connects (200, 10 bytes) and the first
flash write is short. -/
def swEnv : AttemptEnv :=
  { beginOk := true, httpCode := 200, contentLength := 10,
    updateBeginResults := [true], updateIsRunningAtHttpFail := false,
    events := [swEvent], updateEndOk := true, updateIsFinished := true }

/-- Copy-loop iteration that transfers 4 bytes successfully while
`abortUpdate()` is invoked from a callback. -/
def abEvent : ChunkEvent :=
  { connected := true, avail := 4, connectedRecheck := true,
    readCount := 4, writeCount := 4, setAbort := true }

/-- Attempt (200, 8 bytes expected) whose first chunk lands together with
an abort request. -/
def abEnv : AttemptEnv :=
  { beginOk := true, httpCode := 200, contentLength := 8,
    updateBeginResults := [true], updateIsRunningAtHttpFail := false,
    events := [abEvent], updateEndOk := true, updateIsFinished := true }

/-- Bytes-read count delivered by the copy loop in the abort scenario. -/
def c2n : Nat :=
  (copyLoop (decide (0 < abEnv.contentLength)) abEnv.contentLength.toNat
    abEnv.events 0 (attemptInit abEnv st0)).2.1

/-- Session state delivered by the copy loop in the abort scenario. -/
def c2St : Session :=
  (copyLoop (decide (0 < abEnv.contentLength)) abEnv.contentLength.toNat
    abEnv.events 0 (attemptInit abEnv st0)).2.2

/-- Attempt in which the HTTP connection cannot even be opened
(`http.begin` fails), so the attempt is retried. -/
def failEnv : AttemptEnv :=
  { beginOk := false, httpCode := 200, contentLength := 0,
    updateBeginResults := [], updateIsRunningAtHttpFail := false,
    events := [], updateEndOk := true, updateIsFinished := true }

/-- The base session configured with `setRetryCount(255)`, the maximal
`uint8_t` value. -/
def st255 : Session := { st0 with retryCount := 255 }

/-- Checker session for the manifest-caching scenario: current version
equals the remote version, so the check reports no update. -/
def c6State : Session := { st0 with currentVersion := "1.0.1".toList, isUpdating := false }

/-- Manifest fetch that succeeds and parses, yielding version `1.0.1`. -/
def c6Env : CheckEnv :=
  { beginOk := true, httpCode := 200, jsonOk := true,
    version := "1.0.1".toList, url := "http://x/fw.bin".toList, notes := [] }

/-- Session in the middle of a download: 512 of 1024 bytes read. -/
def c8St : Session :=
  { st0 with currentBytesRead := 512, totalBytes := 1024, currentPercent := 50 }

/-- Idle session: no update in progress, no recorded progress. -/
def c10St : Session := { st0 with isUpdating := false }

/-- Session state the copy loop delivers in the abort scenario, with the
post-loop forced 100-percent progress applied and then the abort path's
error recording and clearing (cpp lines 466-480). -/
def c2Fatal : Session :=
  clearProgress (setError .UPDATE_ABORTED
    { c2St with currentPercent := 100, currentBytesRead := c2n })

/-- Result of running the installer against a server that refuses every
connection, with retry count 3 (4 attempts, all `NETWORK_ERROR`). -/
def c3Result : RunResult :=
  ⟨false, clearProgress (setError .NETWORK_ERROR
    { c10St with isUpdating := true, abortFlag := false,
                 lastError := UpdateError.NO_ERROR }), ⟨0, 0⟩, 4⟩

/-- Copy-loop iteration that transfers the whole 4-byte image in one
chunk with a full flash write. -/
def okEvent : ChunkEvent :=
  { connected := true, avail := 4, connectedRecheck := true,
    readCount := 4, writeCount := 4, setAbort := false }

/-- Attempt that downloads and flashes a 4-byte image successfully. -/
def okEnv : AttemptEnv :=
  { beginOk := true, httpCode := 200, contentLength := 4,
    updateBeginResults := [true], updateIsRunningAtHttpFail := false,
    events := [okEvent], updateEndOk := true, updateIsFinished := true }

/-- Session state after the successful 4-byte attempt: everything read,
progress forced to 100. -/
def okSt : Session :=
  { attemptInit okEnv st0 with currentBytesRead := 4, currentPercent := 100 }

/-- Base session with the abort flag already raised. -/
def stAborted : Session := { st0 with abortFlag := true }

/-- Live loop state after 257 failed attempts at retryCount 255: the
installer prologue has run and every attempt recorded `NETWORK_ERROR`. -/
def c7MoreSt : Session :=
  { st255 with isUpdating := true, abortFlag := false,
               lastError := UpdateError.NETWORK_ERROR }

/-! ## Theorems -/

/-- The unrolled comparison loop returns a negative value exactly when the
first unequal component pair is ordered upward. -/
theorem cmpTriple_lt_iff (x y : Int × Int × Int) :
    cmpTriple x y < 0 ↔ lexLt x y := by
  obtain ⟨a0, a1, a2⟩ := x
  obtain ⟨b0, b1, b2⟩ := y
  simp only [cmpTriple, lexLt]
  split_ifs <;> simp_all


/-- The unrolled comparison loop returns 0 exactly on equal triples. -/
theorem cmpTriple_eq_iff (x y : Int × Int × Int) :
    cmpTriple x y = 0 ↔ x = y := by
  obtain ⟨a0, a1, a2⟩ := x
  obtain ⟨b0, b1, b2⟩ := y
  simp only [cmpTriple, Prod.mk.injEq]
  split_ifs <;> simp_all <;> omega

/-- Comparing a triple with itself yields 0. -/
theorem cmpTriple_self (x : Int × Int × Int) : cmpTriple x x = 0 := by
  simp [cmpTriple]

/-- C5 counterexample: `atoi` honours a leading minus sign, so
`parseVersion "-1.2.3"` has first component `-1`, a negative value — the
components are not always non-negative, and `"-1.2.3"` consequently
compares strictly below `"0.2.3"` instead of equal to it. -/
theorem C5_counterexample :
    (parseVersion ("-1.2.3".toList)).1 = -1 ∧
    cmpVersion ("-1.2.3".toList) ("0.2.3".toList) < 0 := by
  decide

/-- Claim C5 (amended): cmpVersion parses each argument as three integer
components split on the first dots (best-effort leading-integer
extraction, which can yield a negative component when the text carries a
leading minus sign), with missing or non-numeric components defaulting
to 0, and returns a value whose sign is that of the first unequal
component pair (0 when all three match); cmp(x,x)=0 for every string x,
cmp("1.2.3","1.2.4") < 0, cmp("2.0.0","1.9.9") > 0, and malformed
inputs such as "" and "abc" compare as 0.0.0 without failing. -/
theorem C5_version_comparator :
    (∀ a, cmpVersion a a = 0)
    ∧ cmpVersion ("1.2.3".toList) ("1.2.4".toList) < 0
    ∧ cmpVersion ("2.0.0".toList) ("1.9.9".toList) > 0
    ∧ parseVersion ("".toList) = (0, 0, 0)
    ∧ parseVersion ("abc".toList) = (0, 0, 0)
    ∧ cmpVersion ("".toList) ("abc".toList) = 0
    ∧ (∀ a b, cmpVersion a b < 0 ↔ lexLt (parseVersion a) (parseVersion b))
    ∧ (∀ a b, cmpVersion a b = 0 ↔ parseVersion a = parseVersion b) := by
  refine ⟨fun a => cmpTriple_self _, by decide, by decide, by decide, by decide,
    by decide, fun a b => cmpTriple_lt_iff _ _, fun a b => cmpTriple_eq_iff _ _⟩

/-- Witness for C5: the amended comparator theorem applied at concrete
version strings. -/
theorem C5_version_comparator_witness :
    cmpVersion ("3.4.5".toList) ("3.4.5".toList) = 0 ∧
    cmpVersion ("1.0.0".toList) ("2.0.0".toList) < 0 :=
  ⟨C5_version_comparator.1 ("3.4.5".toList),
   (C5_version_comparator.2.2.2.2.2.2.1 ("1.0.0".toList) ("2.0.0".toList)).mpr
     (by decide)⟩

/-- Claim C9: cmpVersion depends only on the first three dot-separated
components: strings whose parsed triples agree compare equal, and in
particular "1.2.3.4" and "1.2.3.9" compare equal although they differ in
the fourth component. -/
theorem C9_first_three_components :
    (∀ a b, parseVersion a = parseVersion b → cmpVersion a b = 0)
    ∧ cmpVersion ("1.2.3.4".toList) ("1.2.3.9".toList) = 0 := by
  constructor
  · intro a b h
    unfold cmpVersion
    rw [h]
    exact cmpTriple_self _
  · decide

/-- Witness for C9: two strings differing only past the third component
compare equal by the general statement. -/
theorem C9_first_three_components_witness :
    cmpVersion ("7.8.9.1".toList) ("7.8.9.22".toList) = 0 :=
  C9_first_three_components.1 ("7.8.9.1".toList) ("7.8.9.22".toList) (by decide)

/-- Claim C4: when the manifest fetch succeeds (connection opened, HTTP
200, JSON parsed) and the manifest is well-formed (version and url
non-empty, version contains a dot), checkForUpdate returns true exactly
when the remote version compares strictly greater than currentVersion
under the three-component comparison, and when not strictly greater it
records NO_UPDATE_AVAILABLE and returns false. -/
theorem C4_check_true_iff_newer :
    ∀ (httpOnly : Bool) (st : Session) (env : CheckEnv),
    ¬ (httpOnly = true ∧ isHttpsUrl st.githubUrl = true) →
    env.beginOk = true → env.httpCode = 200 → env.jsonOk = true →
    env.version ≠ [] → env.url ≠ [] → hasDot env.version = true →
    ((checkForUpdate httpOnly st env).1 = true ↔
      0 < cmpVersion env.version st.currentVersion)
    ∧ (cmpVersion env.version st.currentVersion ≤ 0 →
      (checkForUpdate httpOnly st env).1 = false ∧
      (checkForUpdate httpOnly st env).2.lastError = UpdateError.NO_UPDATE_AVAILABLE) := by
  intro httpOnly st env hUrl hBegin hCode hJson hVer hU hDot
  unfold checkForUpdate
  dsimp only
  rw [if_neg hUrl]
  simp [hBegin, hCode, hJson, hVer, hU, hDot]
  split_ifs with h
  · exact ⟨by simp; omega, fun _ => ⟨rfl, rfl⟩⟩
  · exact ⟨by simp; omega, fun hle => (h hle).elim⟩

/-- Witness for C4: a concrete successful fetch of version 1.0.1 against
current version 1.0.0 reports an update. -/
theorem C4_check_true_iff_newer_witness :
    (checkForUpdate false st0 c6Env).1 = true :=
  ((C4_check_true_iff_newer false st0 c6Env (by decide) (by decide) (by decide)
    (by decide) (by decide) (by decide) (by decide)).1).mpr (by decide)

/-- C6 counterexample: a successful fetch whose manifest version equals
the current version makes checkForUpdate return false (NoUpdateAvailable)
with the cached manifest fields populated, not empty. -/
theorem C6_counterexample :
    (checkForUpdate false c6State c6Env).1 = false ∧
    (checkForUpdate false c6State c6Env).2.lastError = UpdateError.NO_UPDATE_AVAILABLE ∧
    (checkForUpdate false c6State c6Env).2.remoteVersion ≠ [] ∧
    (checkForUpdate false c6State c6Env).2.firmwareUrl ≠ [] := by
  decide

/-- Claim C6 (amended): every checkForUpdate invocation clears the cached
manifest fields on entry, so an invocation that returns false before the
manifest body is stored — rejected URL scheme, connection failure,
non-200 HTTP status, or JSON parse failure — leaves remoteVersion,
firmwareUrl and releaseNotes empty; once the body is parsed the fields
hold the fetched manifest values, even on the false returns taken at
validation or at the version comparison. -/
theorem C6_manifest_field_caching :
    ∀ (httpOnly : Bool) (st : Session) (env : CheckEnv),
    (((httpOnly = true ∧ isHttpsUrl st.githubUrl = true) ∨ env.beginOk = false ∨
        env.httpCode ≠ 200 ∨ env.jsonOk = false) →
      (checkForUpdate httpOnly st env).2.remoteVersion = [] ∧
      (checkForUpdate httpOnly st env).2.firmwareUrl = [] ∧
      (checkForUpdate httpOnly st env).2.releaseNotes = [])
    ∧ (¬ (httpOnly = true ∧ isHttpsUrl st.githubUrl = true) → env.beginOk = true →
      env.httpCode = 200 → env.jsonOk = true →
      (checkForUpdate httpOnly st env).2.remoteVersion = env.version ∧
      (checkForUpdate httpOnly st env).2.firmwareUrl = env.url ∧
      (checkForUpdate httpOnly st env).2.releaseNotes = env.notes) := by
  intro httpOnly st env
  constructor
  · intro h
    unfold checkForUpdate
    dsimp only
    by_cases hS : httpOnly = true ∧ isHttpsUrl st.githubUrl = true
    · simp [hS, setError]
    · rw [if_neg hS]
      split_ifs <;> simp_all [setError]
  · intro hUrl hBegin hCode hJson
    unfold checkForUpdate
    dsimp only
    rw [if_neg hUrl]
    simp [hBegin, hCode, hJson]
    split_ifs <;> simp_all [setError]

/-- Witness for C6: the amended caching theorem applied to a concrete
failed fetch (connection refused) and to a concrete parsed manifest. -/
theorem C6_manifest_field_caching_witness :
    ((checkForUpdate false c6State { c6Env with beginOk := false }).2.remoteVersion = [] ∧
      (checkForUpdate false c6State { c6Env with beginOk := false }).2.firmwareUrl = [] ∧
      (checkForUpdate false c6State { c6Env with beginOk := false }).2.releaseNotes = []) ∧
    (checkForUpdate false c6State c6Env).2.remoteVersion = c6Env.version :=
  ⟨(C6_manifest_field_caching false c6State { c6Env with beginOk := false }).1
      (Or.inr (Or.inl rfl)),
   ((C6_manifest_field_caching false c6State c6Env).2 (by decide) rfl rfl rfl).1⟩

/-- Claim C8: getProgress returns true exactly when a download is live —
an update is actively in progress (`_isUpdating`) or a download has just
completed at 100 percent of a known total (`_currentPercent >= 100` with
`_totalBytes > 0`) — and whenever it returns true the three output
parameters hold the recorded snapshot (bytesRead, totalBytes, percent). -/
theorem C8_progress_liveness :
    ∀ (st : Session) (b t p : Nat),
    (getProgress st b t p).1 =
      (st.isUpdating || (decide (100 ≤ st.currentPercent) && decide (0 < st.totalBytes)))
    ∧ ((getProgress st b t p).1 = true →
      getProgress st b t p =
        (true, st.currentBytesRead, st.totalBytes, st.currentPercent)) := by
  intro st b t p
  unfold getProgress
  split_ifs with h
  · obtain ⟨h1, h2, h3⟩ := h
    simp [h1, h2, h3]
  · simp only [true_and]
    intro hTrue
    rw [hTrue]

/-- Witness for C8: a live snapshot mid-download is reported as such. -/
theorem C8_progress_liveness_witness :
    (getProgress c8St 0 0 0).1 = true ∧
    getProgress c8St 0 0 0 = (true, c8St.currentBytesRead, c8St.totalBytes, c8St.currentPercent) := by
  have h := C8_progress_liveness c8St 0 0 0
  have h1 : (getProgress c8St 0 0 0).1 = true := by rw [h.1]; decide
  exact ⟨h1, h.2 h1⟩

/-- Claim C10: when no update is in progress and the recorded progress is
zero (percent and bytesRead both 0), getProgress returns false and the
three caller-supplied output variables keep the values they had before
the call. -/
theorem C10_idle_zero_progress_frame :
    ∀ (st : Session) (b t p : Nat),
    st.isUpdating = false → st.currentPercent = 0 → st.currentBytesRead = 0 →
    getProgress st b t p = (false, b, t, p) := by
  intro st b t p h1 h2 h3
  unfold getProgress
  simp [h1, h2, h3]

/-- Witness for C10: an idle session leaves the caller variables 7, 8, 9
untouched. -/
theorem C10_idle_zero_progress_frame_witness :
    getProgress c10St 7 8 9 = (false, 7, 8, 9) :=
  C10_idle_zero_progress_frame c10St 7 8 9 rfl rfl rfl

/-- `abortUpdate` landing during an iteration only touches the abort flag,
so the configured retry count is preserved. -/
theorem applyAbort_retryCount (e : ChunkEvent) (st : Session) :
    (applyAbort e st).retryCount = st.retryCount := by
  unfold applyAbort
  split <;> rfl

/-- The copy loop never touches the configured retry count. -/
theorem copyLoop_retryCount (hasCL : Bool) (cl : Nat) :
    ∀ (events : List ChunkEvent) (totalRead : Nat) (st : Session),
    ((copyLoop hasCL cl events totalRead st).2.2).retryCount = st.retryCount := by
  intro events
  induction events with
  | nil => intro totalRead st; rfl
  | cons e rest ih =>
    intro totalRead st
    simp only [copyLoop]
    split_ifs <;> simp_all [applyAbort_retryCount, ih]

/-- An attempt that falls through to the next retry preserves the
configured retry count (it only writes error and progress fields). -/
theorem runAttempt_failed_retryCount (httpOnly : Bool) (url : List Char)
    (env : AttemptEnv) (st : Session) (tr : Trace) (st2 : Session) (tr2 : Trace)
    (h : runAttempt httpOnly url env st tr = .failed st2 tr2) :
    st2.retryCount = st.retryCount := by
  have hCopy := copyLoop_retryCount (decide (0 < env.contentLength))
    env.contentLength.toNat env.events 0 (attemptInit env st)
  unfold runAttempt at h
  dsimp only at h
  repeat' split at h
  all_goals
    first
      | (injection h with hA hB; subst hA; subst hB;
         simp_all [setError, clearProgress, attemptInit])
      | simp_all [setError, clearProgress, attemptInit]

/-- An attempt that falls through to the next retry always records a
non-`NO_ERROR` code. -/
theorem runAttempt_failed_lastError (httpOnly : Bool) (url : List Char)
    (env : AttemptEnv) (st : Session) (tr : Trace) (st2 : Session) (tr2 : Trace)
    (h : runAttempt httpOnly url env st tr = .failed st2 tr2) :
    st2.lastError ≠ UpdateError.NO_ERROR := by
  unfold runAttempt at h
  dsimp only at h
  repeat' split at h
  all_goals
    first
      | (injection h with hA hB; subst hA; subst hB;
         simp_all [setError, clearProgress, attemptInit])
      | simp_all [setError, clearProgress, attemptInit]

/-- An attempt that returns false from inside the loop body leaves a
non-`NO_ERROR` code, `_isUpdating` false and the progress counters
zeroed. -/
theorem runAttempt_fatal_props (httpOnly : Bool) (url : List Char)
    (env : AttemptEnv) (st : Session) (tr : Trace) (st2 : Session) (tr2 : Trace)
    (h : runAttempt httpOnly url env st tr = .fatal st2 tr2) :
    st2.lastError ≠ UpdateError.NO_ERROR ∧ st2.isUpdating = false ∧
    st2.currentBytesRead = 0 ∧ st2.totalBytes = 0 ∧ st2.currentPercent = 0 := by
  unfold runAttempt at h
  dsimp only at h
  repeat' split at h
  all_goals
    first
      | (injection h with hA hB; subst hA; subst hB;
         simp_all [setError, clearProgress, attemptInit])
      | simp_all [setError, clearProgress, attemptInit]

/-- Unfolding the attempt body on the short-write path: when the
connection opens with a 200 status, the flash transaction starts, and
the copy loop ends with `shortWrite`, the attempt returns `fatal` with
`FLASH_FAILED` recorded, progress cleared, one `Update.abort` and one
`http.end` performed. -/
theorem runAttempt_shortWrite_eq (httpOnly : Bool) (url : List Char)
    (env : AttemptEnv) (st : Session) (tr : Trace) (n : Nat) (st2 : Session)
    (hUrl : ¬ (httpOnly = true ∧ isHttpsUrl url = true))
    (hBegin : env.beginOk = true) (hCode : env.httpCode = 200)
    (hTry : tryBegin env.updateBeginResults 0 = true)
    (hCopy : copyLoop (decide (0 < env.contentLength)) env.contentLength.toNat
        env.events 0 (attemptInit env st) = (CopyExit.shortWrite, n, st2)) :
    runAttempt httpOnly url env st tr =
      AttemptResult.fatal (clearProgress (setError .FLASH_FAILED st2))
        ⟨tr.flashAborts + 1, tr.httpEnds + 1⟩ := by
  unfold runAttempt
  rw [if_neg hUrl, if_neg (by simp [hBegin]), if_neg (by simp [hCode])]
  dsimp only
  rw [if_neg (by simp [hTry]), hCopy]

/-- Unfolding the attempt body on the abort path: when the copy loop ends
normally but the abort flag is set in the state it hands back, the
attempt returns `fatal` with `UPDATE_ABORTED` recorded, progress
cleared, one `Update.abort` and one `http.end` performed. -/
theorem runAttempt_abort_eq (httpOnly : Bool) (url : List Char)
    (env : AttemptEnv) (st : Session) (tr : Trace) (n : Nat) (st2 : Session)
    (hUrl : ¬ (httpOnly = true ∧ isHttpsUrl url = true))
    (hBegin : env.beginOk = true) (hCode : env.httpCode = 200)
    (hTry : tryBegin env.updateBeginResults 0 = true)
    (hCopy : copyLoop (decide (0 < env.contentLength)) env.contentLength.toNat
        env.events 0 (attemptInit env st) = (CopyExit.finished, n, st2))
    (hAb : st2.abortFlag = true) :
    runAttempt httpOnly url env st tr =
      AttemptResult.fatal (clearProgress (setError .UPDATE_ABORTED
          { st2 with currentPercent := 100, currentBytesRead := n }))
        ⟨tr.flashAborts + 1, tr.httpEnds + 1⟩ := by
  unfold runAttempt
  rw [if_neg hUrl, if_neg (by simp [hBegin]), if_neg (by simp [hCode])]
  dsimp only
  rw [if_neg (by simp [hTry]), hCopy]
  dsimp only
  have hAb2 : ({ st2 with currentPercent := 100, currentBytesRead := n } :
      Session).abortFlag = true := hAb
  rw [if_pos hAb2]

/-- A `fatal` attempt makes the retry loop return immediately with that
attempt's state and trace: no further attempt is started. -/
theorem retryLoop_fatal_stops (httpOnly : Bool) (url : List Char)
    (envs : Nat → AttemptEnv) (fuel retryAttempt : Nat) (st : Session)
    (tr : Trace) (used : Nat) (stf : Session) (trf : Trace)
    (hRa : retryAttempt ≤ st.retryCount) (hAb : st.abortFlag = false)
    (hRun : runAttempt httpOnly url (envs used) st tr = .fatal stf trf) :
    retryLoop httpOnly url envs (fuel + 1) retryAttempt st tr used =
      .done ⟨false, stf, trf, used + 1⟩ := by
  unfold retryLoop
  rw [if_pos ⟨hRa, hAb⟩]
  dsimp only
  rw [hRun]

/-- A successful attempt makes the retry loop return true immediately:
the loop stops at the first success. -/
theorem retryLoop_ok_stops (httpOnly : Bool) (url : List Char)
    (envs : Nat → AttemptEnv) (fuel retryAttempt : Nat) (st : Session)
    (tr : Trace) (used : Nat) (stf : Session) (trf : Trace)
    (hRa : retryAttempt ≤ st.retryCount) (hAb : st.abortFlag = false)
    (hRun : runAttempt httpOnly url (envs used) st tr = .ok stf trf) :
    retryLoop httpOnly url envs (fuel + 1) retryAttempt st tr used =
      .done ⟨true, stf, trf, used + 1⟩ := by
  unfold retryLoop
  rw [if_pos ⟨hRa, hAb⟩]
  dsimp only
  rw [hRun]

/-- When the loop condition fails (attempts exhausted or abort flag
observed) the loop returns at once through the `!success` epilogue. -/
theorem retryLoop_exit (httpOnly : Bool) (url : List Char)
    (envs : Nat → AttemptEnv) (fuel retryAttempt : Nat) (st : Session)
    (tr : Trace) (used : Nat)
    (h : ¬ (retryAttempt ≤ st.retryCount ∧ st.abortFlag = false)) :
    retryLoop httpOnly url envs fuel retryAttempt st tr used =
      .done ⟨false, clearProgress st, tr, used⟩ := by
  unfold retryLoop
  rw [if_neg h]

/-- A failed attempt steps the retry loop: counter incremented modulo
256, fuel consumed. -/
theorem retryLoop_failed_step (httpOnly : Bool) (url : List Char)
    (envs : Nat → AttemptEnv) (fuel retryAttempt : Nat) (st : Session)
    (tr : Trace) (used : Nat) (st2 : Session) (tr2 : Trace)
    (hCond : retryAttempt ≤ st.retryCount ∧ st.abortFlag = false)
    (hRun : runAttempt httpOnly url (envs used) st tr = .failed st2 tr2) :
    retryLoop httpOnly url envs (fuel + 1) retryAttempt st tr used =
      retryLoop httpOnly url envs fuel ((retryAttempt + 1) % 256) st2 tr2 (used + 1) := by
  conv_lhs => rw [retryLoop]
  rw [if_pos hCond]
  rw [hRun]

/-- Whenever the retry loop returns false, the last executed attempt has
recorded an error and the epilogue or the fatal path has cleared
`_isUpdating` and the progress counters.  The disjunctive hypothesis is
the loop invariant: either an error is already recorded, or no attempt
has run yet (counter 0, abort clear). -/
theorem retryLoop_false_invariant (httpOnly : Bool) (url : List Char)
    (envs : Nat → AttemptEnv) :
    ∀ (fuel retryAttempt : Nat) (st : Session) (tr : Trace) (used : Nat)
      (r : RunResult),
    (st.lastError ≠ UpdateError.NO_ERROR ∨
      (st.abortFlag = false ∧ retryAttempt = 0)) →
    retryLoop httpOnly url envs fuel retryAttempt st tr used = .done r →
    r.ret = false →
    r.st.lastError ≠ UpdateError.NO_ERROR ∧ r.st.isUpdating = false ∧
    r.st.currentBytesRead = 0 ∧ r.st.totalBytes = 0 ∧ r.st.currentPercent = 0 := by
  intro fuel
  induction fuel with
  | zero =>
    intro retryAttempt st tr used r hInv hEq hRet
    unfold retryLoop at hEq
    split_ifs at hEq with hCond
    injection hEq with h1
    subst h1
    rcases hInv with hE | ⟨hA, hR0⟩
    · simpa [clearProgress] using hE
    · subst hR0
      exact absurd ⟨Nat.zero_le _, hA⟩ hCond
  | succ fuel ih =>
    intro retryAttempt st tr used r hInv hEq hRet
    unfold retryLoop at hEq
    split_ifs at hEq with hCond
    · dsimp only at hEq
      cases hRun : runAttempt httpOnly url (envs used) st tr with
      | fatal st2 tr2 =>
        rw [hRun] at hEq
        dsimp only at hEq
        injection hEq with h1
        subst h1
        obtain ⟨hE, hU, hB, hT, hP⟩ :=
          runAttempt_fatal_props httpOnly url (envs used) st tr st2 tr2 hRun
        exact ⟨hE, hU, hB, hT, hP⟩
      | ok st2 tr2 =>
        rw [hRun] at hEq
        dsimp only at hEq
        injection hEq with h1
        subst h1
        simp at hRet
      | failed st2 tr2 =>
        rw [hRun] at hEq
        dsimp only at hEq
        exact ih ((retryAttempt + 1) % 256) st2 tr2 (used + 1) r
          (Or.inl (runAttempt_failed_lastError httpOnly url (envs used) st tr
            st2 tr2 hRun)) hEq hRet
    · injection hEq with h1
      subst h1
      rcases hInv with hE | ⟨hA, hR0⟩
      · simpa [clearProgress] using hE
      · subst hR0
        exact absurd ⟨Nat.zero_le _, hA⟩ hCond

/-- When the remaining fuel covers the remaining attempt budget and the
8-bit counter cannot wrap (counter plus budget at most 255), the retry
loop terminates with at most that many further attempts. -/
theorem retryLoop_done_of_fuel (httpOnly : Bool) (url : List Char)
    (envs : Nat → AttemptEnv) :
    ∀ (fuel retryAttempt : Nat) (st : Session) (tr : Trace) (used : Nat),
    st.retryCount + 1 ≤ retryAttempt + fuel → retryAttempt + fuel ≤ 255 →
    ∃ r, retryLoop httpOnly url envs fuel retryAttempt st tr used = .done r ∧
      r.attemptsUsed ≤ used + fuel := by
  intro fuel
  induction fuel with
  | zero =>
    intro retryAttempt st tr used h1 h2
    refine ⟨⟨false, clearProgress st, tr, used⟩, ?_, by simp⟩
    exact retryLoop_exit httpOnly url envs 0 retryAttempt st tr used
      (fun hC => by omega)
  | succ fuel ih =>
    intro retryAttempt st tr used h1 h2
    by_cases hCond : retryAttempt ≤ st.retryCount ∧ st.abortFlag = false
    · cases hRun : runAttempt httpOnly url (envs used) st tr with
      | fatal st2 tr2 =>
        exact ⟨⟨false, st2, tr2, used + 1⟩,
          retryLoop_fatal_stops httpOnly url envs fuel retryAttempt st tr used
            st2 tr2 hCond.1 hCond.2 hRun, by dsimp only; omega⟩
      | ok st2 tr2 =>
        exact ⟨⟨true, st2, tr2, used + 1⟩,
          retryLoop_ok_stops httpOnly url envs fuel retryAttempt st tr used
            st2 tr2 hCond.1 hCond.2 hRun, by dsimp only; omega⟩
      | failed st2 tr2 =>
        have hRc : st2.retryCount = st.retryCount :=
          runAttempt_failed_retryCount httpOnly url (envs used) st tr st2 tr2 hRun
        have hMod : (retryAttempt + 1) % 256 = retryAttempt + 1 :=
          Nat.mod_eq_of_lt (by omega)
        obtain ⟨r, hr, hu⟩ := ih ((retryAttempt + 1) % 256) st2 tr2 (used + 1)
          (by rw [hMod, hRc]; omega) (by rw [hMod]; omega)
        refine ⟨r, ?_, by omega⟩
        rw [retryLoop_failed_step httpOnly url envs fuel retryAttempt st tr used
          st2 tr2 hCond hRun]
        exact hr
    · exact ⟨⟨false, clearProgress st, tr, used⟩,
        retryLoop_exit httpOnly url envs (fuel + 1) retryAttempt st tr used hCond,
        by dsimp only; omega⟩

/-- Claim C1: a short flash write (`Update.write` count different from the
bytes handed in) is fatal for the whole operation.  First part: an attempt
whose copy loop hits a short write returns `fatal` with `FLASH_FAILED`
recorded, `_isUpdating` and all progress counters cleared, exactly one
additional `Update.abort` and one additional `http.end` performed.  Second
part: a `fatal` attempt makes the retry loop return false immediately with
that attempt's state — no further retry attempt is started. -/
theorem C1_short_flash_write_fatal :
    (∀ (httpOnly : Bool) (url : List Char) (env : AttemptEnv) (st : Session)
        (tr : Trace) (n : Nat) (st2 : Session),
      ¬ (httpOnly = true ∧ isHttpsUrl url = true) →
      env.beginOk = true → env.httpCode = 200 →
      tryBegin env.updateBeginResults 0 = true →
      copyLoop (decide (0 < env.contentLength)) env.contentLength.toNat
          env.events 0 (attemptInit env st) = (CopyExit.shortWrite, n, st2) →
      runAttempt httpOnly url env st tr =
        AttemptResult.fatal (clearProgress (setError .FLASH_FAILED st2))
          ⟨tr.flashAborts + 1, tr.httpEnds + 1⟩ ∧
      (clearProgress (setError .FLASH_FAILED st2)).lastError = UpdateError.FLASH_FAILED ∧
      (clearProgress (setError .FLASH_FAILED st2)).isUpdating = false ∧
      (clearProgress (setError .FLASH_FAILED st2)).currentBytesRead = 0 ∧
      (clearProgress (setError .FLASH_FAILED st2)).totalBytes = 0 ∧
      (clearProgress (setError .FLASH_FAILED st2)).currentPercent = 0)
    ∧ (∀ (httpOnly : Bool) (url : List Char) (envs : Nat → AttemptEnv)
        (fuel retryAttempt : Nat) (st : Session) (tr : Trace) (used : Nat)
        (stf : Session) (trf : Trace),
      retryAttempt ≤ st.retryCount → st.abortFlag = false →
      runAttempt httpOnly url (envs used) st tr = .fatal stf trf →
      retryLoop httpOnly url envs (fuel + 1) retryAttempt st tr used =
        .done ⟨false, stf, trf, used + 1⟩) := by
  constructor
  · intro httpOnly url env st tr n st2 hUrl hBegin hCode hTry hCopy
    exact ⟨runAttempt_shortWrite_eq httpOnly url env st tr n st2 hUrl hBegin
      hCode hTry hCopy, rfl, rfl, rfl, rfl, rfl⟩
  · intro httpOnly url envs fuel retryAttempt st tr used stf trf hRa hAb hRun
    exact retryLoop_fatal_stops httpOnly url envs fuel retryAttempt st tr used
      stf trf hRa hAb hRun

/-- Witness for C1: a concrete attempt whose first chunk write is short
(5 bytes handed in, 3 reported written) ends the whole operation at once
with `FLASH_FAILED`, one flash abort and one connection release. -/
theorem C1_short_flash_write_fatal_witness :
    runAttempt false u0 swEnv st0 ⟨0, 0⟩ =
      AttemptResult.fatal (clearProgress (setError .FLASH_FAILED
        (attemptInit swEnv st0))) ⟨1, 1⟩ ∧
    retryLoop false u0 (fun _ => swEnv) 4 0 st0 ⟨0, 0⟩ 0 =
      .done ⟨false, clearProgress (setError .FLASH_FAILED (attemptInit swEnv st0)),
        ⟨1, 1⟩, 1⟩ := by
  have h1 := (C1_short_flash_write_fatal.1 false u0 swEnv st0 ⟨0, 0⟩ 0
    (attemptInit swEnv st0) (by decide) (by decide) (by decide) (by decide)
    (by decide)).1
  exact ⟨h1, C1_short_flash_write_fatal.2 false u0 (fun _ => swEnv) 3 0 st0
    ⟨0, 0⟩ 0 (clearProgress (setError .FLASH_FAILED (attemptInit swEnv st0)))
    ⟨1, 1⟩ (by decide) rfl h1⟩

/-- Claim C2: an abort observed after the chunked copy loop is terminal.
First part: an attempt whose copy loop ends with the abort flag set
returns `fatal` with `UPDATE_ABORTED` recorded, `_isUpdating` and the
progress counters cleared, exactly one additional `Update.abort` and one
additional `http.end` performed.  Second part: a `fatal` attempt makes
the retry loop return false immediately — it does not fall through to
another retry attempt. -/
theorem C2_abort_is_terminal :
    (∀ (httpOnly : Bool) (url : List Char) (env : AttemptEnv) (st : Session)
        (tr : Trace) (n : Nat) (st2 : Session),
      ¬ (httpOnly = true ∧ isHttpsUrl url = true) →
      env.beginOk = true → env.httpCode = 200 →
      tryBegin env.updateBeginResults 0 = true →
      copyLoop (decide (0 < env.contentLength)) env.contentLength.toNat
          env.events 0 (attemptInit env st) = (CopyExit.finished, n, st2) →
      st2.abortFlag = true →
      runAttempt httpOnly url env st tr =
        AttemptResult.fatal (clearProgress (setError .UPDATE_ABORTED
            { st2 with currentPercent := 100, currentBytesRead := n }))
          ⟨tr.flashAborts + 1, tr.httpEnds + 1⟩ ∧
      (clearProgress (setError .UPDATE_ABORTED
        { st2 with currentPercent := 100, currentBytesRead := n })).lastError =
          UpdateError.UPDATE_ABORTED ∧
      (clearProgress (setError .UPDATE_ABORTED
        { st2 with currentPercent := 100, currentBytesRead := n })).isUpdating = false ∧
      (clearProgress (setError .UPDATE_ABORTED
        { st2 with currentPercent := 100, currentBytesRead := n })).currentBytesRead = 0 ∧
      (clearProgress (setError .UPDATE_ABORTED
        { st2 with currentPercent := 100, currentBytesRead := n })).totalBytes = 0 ∧
      (clearProgress (setError .UPDATE_ABORTED
        { st2 with currentPercent := 100, currentBytesRead := n })).currentPercent = 0)
    ∧ (∀ (httpOnly : Bool) (url : List Char) (envs : Nat → AttemptEnv)
        (fuel retryAttempt : Nat) (st : Session) (tr : Trace) (used : Nat)
        (stf : Session) (trf : Trace),
      retryAttempt ≤ st.retryCount → st.abortFlag = false →
      runAttempt httpOnly url (envs used) st tr = .fatal stf trf →
      retryLoop httpOnly url envs (fuel + 1) retryAttempt st tr used =
        .done ⟨false, stf, trf, used + 1⟩) := by
  constructor
  · intro httpOnly url env st tr n st2 hUrl hBegin hCode hTry hCopy hAb
    exact ⟨runAttempt_abort_eq httpOnly url env st tr n st2 hUrl hBegin hCode
      hTry hCopy hAb, rfl, rfl, rfl, rfl, rfl⟩
  · intro httpOnly url envs fuel retryAttempt st tr used stf trf hRa hAb hRun
    exact retryLoop_fatal_stops httpOnly url envs fuel retryAttempt st tr used
      stf trf hRa hAb hRun

/-- Witness for C2: a concrete attempt in which `abortUpdate()` lands
during the only transferred chunk ends the whole operation at once with
`UPDATE_ABORTED`, one flash abort and one connection release. -/
theorem C2_abort_is_terminal_witness :
    runAttempt false u0 abEnv st0 ⟨0, 0⟩ = AttemptResult.fatal c2Fatal ⟨1, 1⟩ ∧
    retryLoop false u0 (fun _ => abEnv) 4 0 st0 ⟨0, 0⟩ 0 =
      .done ⟨false, c2Fatal, ⟨1, 1⟩, 1⟩ := by
  have h1 := (C2_abort_is_terminal.1 false u0 abEnv st0 ⟨0, 0⟩ c2n c2St
    (by decide) (by decide) (by decide) (by decide) (by decide) (by decide)).1
  exact ⟨h1, C2_abort_is_terminal.2 false u0 (fun _ => abEnv) 3 0 st0 ⟨0, 0⟩ 0
    c2Fatal ⟨1, 1⟩ (by decide) rfl h1⟩

/-- Claim C3: whenever performHttpFirmwareUpdate returns false, lastError
holds a non-NO_ERROR code and the three progress counters are all zero.
The session is assumed to enter with zero counters, which is the state
every terminating call leaves behind (the only path returning with
non-zero counters first requests a device restart). -/
theorem C3_false_return_error_and_zero_progress :
    ∀ (httpOnly : Bool) (url : List Char) (envs : Nat → AttemptEnv) (fuel : Nat)
      (st : Session) (r : RunResult),
    st.currentBytesRead = 0 → st.totalBytes = 0 → st.currentPercent = 0 →
    performHttpFirmwareUpdate httpOnly url envs fuel st = .done r →
    r.ret = false →
    r.st.lastError ≠ UpdateError.NO_ERROR ∧ r.st.currentBytesRead = 0 ∧
    r.st.totalBytes = 0 ∧ r.st.currentPercent = 0 := by
  intro httpOnly url envs fuel st r hB hT hP hEq hRet
  unfold performHttpFirmwareUpdate at hEq
  split_ifs at hEq with hEmpty hHttps
  · injection hEq with h1
    subst h1
    exact ⟨by simp [setError], by simp [setError, hB], by simp [setError, hT],
      by simp [setError, hP]⟩
  · injection hEq with h1
    subst h1
    exact ⟨by simp [setError], by simp [setError, hB], by simp [setError, hT],
      by simp [setError, hP]⟩
  · have h := retryLoop_false_invariant httpOnly url envs fuel 0
      { st with isUpdating := true, abortFlag := false,
                lastError := UpdateError.NO_ERROR } ⟨0, 0⟩ 0 r
      (Or.inr ⟨rfl, rfl⟩) hEq hRet
    exact ⟨h.1, h.2.2.1, h.2.2.2.1, h.2.2.2.2⟩

/-- Witness for C3: against a server refusing every connection, the run
returns false with `NETWORK_ERROR` recorded and zeroed counters. -/
theorem C3_false_return_error_and_zero_progress_witness :
    performHttpFirmwareUpdate false u0 (fun _ => failEnv) 4 c10St = .done c3Result ∧
    c3Result.st.lastError ≠ UpdateError.NO_ERROR ∧
    c3Result.st.currentBytesRead = 0 ∧ c3Result.st.totalBytes = 0 ∧
    c3Result.st.currentPercent = 0 := by
  have hEq : performHttpFirmwareUpdate false u0 (fun _ => failEnv) 4 c10St =
      .done c3Result := by decide
  exact ⟨hEq, C3_false_return_error_and_zero_progress false u0 (fun _ => failEnv)
    4 c10St c3Result rfl rfl rfl hEq rfl⟩

set_option maxRecDepth 40000 in
/-- C7 counterexample: with the configured retryCount at its maximal
`uint8_t` value 255, the claimed bound of retryCount + 1 = 256 attempts
fails: the 8-bit `retryAttempt` counter wraps from 255 to 0, so against a
server refusing every connection the loop has already executed 257
attempts and is still running (the loop condition
`retryAttempt <= _retryCount` is then always true). -/
theorem C7_counterexample :
    performHttpFirmwareUpdate false u0 (fun _ => failEnv) 257 st255 =
      .more 1 c7MoreSt ⟨0, 0⟩ 257 := by
  decide

/-- Claim C7 (amended): for every configured retryCount up to 254 and
every invocation that passes URL validation, the outer retry loop
terminates after at most retryCount + 1 attempts; it stops at the first
successful attempt and stops immediately (executing no further attempt)
once the abort flag is observed at the loop head.  (With retryCount =
255, the 8-bit attempt counter wraps before exceeding retryCount, so the
attempt budget is never exhausted and the loop keeps retrying while
attempts keep failing.) -/
theorem C7_retry_bound :
    (∀ (httpOnly : Bool) (url : List Char) (envs : Nat → AttemptEnv) (st : Session),
      st.retryCount ≤ 254 → url ≠ [] →
      ¬ (httpOnly = true ∧ isHttpsUrl url = true) →
      ∃ r, performHttpFirmwareUpdate httpOnly url envs (st.retryCount + 1) st =
          .done r ∧ r.attemptsUsed ≤ st.retryCount + 1)
    ∧ (∀ (httpOnly : Bool) (url : List Char) (envs : Nat → AttemptEnv)
        (fuel retryAttempt : Nat) (st : Session) (tr : Trace) (used : Nat)
        (stf : Session) (trf : Trace),
      retryAttempt ≤ st.retryCount → st.abortFlag = false →
      runAttempt httpOnly url (envs used) st tr = .ok stf trf →
      retryLoop httpOnly url envs (fuel + 1) retryAttempt st tr used =
        .done ⟨true, stf, trf, used + 1⟩)
    ∧ (∀ (httpOnly : Bool) (url : List Char) (envs : Nat → AttemptEnv)
        (fuel retryAttempt : Nat) (st : Session) (tr : Trace) (used : Nat),
      st.abortFlag = true →
      retryLoop httpOnly url envs fuel retryAttempt st tr used =
        .done ⟨false, clearProgress st, tr, used⟩) := by
  refine ⟨?_, ?_, ?_⟩
  · intro httpOnly url envs st hRc hUrl hS
    unfold performHttpFirmwareUpdate
    rw [if_neg hUrl, if_neg hS]
    dsimp only
    obtain ⟨r, hr, hu⟩ := retryLoop_done_of_fuel httpOnly url envs
      (st.retryCount + 1) 0
      { st with isUpdating := true, abortFlag := false,
                lastError := UpdateError.NO_ERROR } ⟨0, 0⟩ 0
      (by dsimp only; omega) (by omega)
    exact ⟨r, hr, by omega⟩
  · intro httpOnly url envs fuel retryAttempt st tr used stf trf hRa hAb hRun
    exact retryLoop_ok_stops httpOnly url envs fuel retryAttempt st tr used
      stf trf hRa hAb hRun
  · intro httpOnly url envs fuel retryAttempt st tr used hAb
    exact retryLoop_exit httpOnly url envs fuel retryAttempt st tr used
      (fun hC => by rw [hAb] at hC; simp at hC)

/-- Witness for C7: the loop stops right at a first successful attempt,
and an observed abort flag stops it with no further attempt. -/
theorem C7_retry_bound_witness :
    retryLoop false u0 (fun _ => okEnv) 4 0 st0 ⟨0, 0⟩ 0 =
      .done ⟨true, okSt, ⟨0, 1⟩, 1⟩ ∧
    retryLoop false u0 (fun _ => failEnv) 7 2 stAborted ⟨0, 0⟩ 5 =
      .done ⟨false, clearProgress stAborted, ⟨0, 0⟩, 5⟩ := by
  have hRun : runAttempt false u0 okEnv st0 ⟨0, 0⟩ = .ok okSt ⟨0, 1⟩ := by decide
  exact ⟨C7_retry_bound.2.1 false u0 (fun _ => okEnv) 3 0 st0 ⟨0, 0⟩ 0 okSt
    ⟨0, 1⟩ (by decide) rfl hRun,
    C7_retry_bound.2.2 false u0 (fun _ => failEnv) 7 2 stAborted ⟨0, 0⟩ 5 rfl⟩

end GitFirmwareUpdate
